import Mathlib

/-
Verification development for the shiv bootstrap module
(src/shiv/bootstrap/__init__.py).

The Python module is shallowly embedded: paths are strings, the ambient
filesystem / environment / platform state is an explicit `World` record of
pure query functions, fallible steps return `Except`, and the extractor is
modelled as the trace of filesystem operations it performs.  Every
definition is translated directly from the corresponding Python function
and keeps its name where Lean allows it.
-/

/- ---------------------------------------------------------------------
   String and path helpers (embedding of the pathlib / str operations the
   module uses).  Paths are plain strings; helpers are written over
   `String.toList` so that everything reduces in the kernel.
--------------------------------------------------------------------- -/

/-- Split a string on a separator character, keeping empty chunks — the
semantics of Python's `str.split(sep)` (so `"".split(":") == [""]`). -/
def splitChar (sep : Char) (s : String) : List String :=
  (s.toList.foldr
    (fun c acc =>
      if c = sep then [] :: acc
      else match acc with
           | h :: t => (c :: h) :: t
           | [] => [[c]])
    [[]]).map String.mk

/-- Join a list of strings with a separator — Python's `sep.join(xs)`. -/
def joinSep (sep : String) : List String → String
  | [] => ""
  | [x] => x
  | x :: xs => x ++ sep ++ joinSep sep xs

/-- Embeds `pre.isPrefixOf`-style test on strings, by character list. -/
def strStartsWith (s pre : String) : Bool :=
  List.isPrefixOf pre.toList s.toList

/-- Suffix test on strings, by character list. -/
def strEndsWith (s suf : String) : Bool :=
  List.isSuffixOf suf.toList s.toList

/-- Drop the first `n` characters — Python's `s[n:]`. -/
def strDrop (s : String) (n : Nat) : String :=
  String.mk (s.toList.drop n)

/-- Python's `str.strip()` (remove leading and trailing whitespace). -/
def strTrim (s : String) : String :=
  String.mk (((s.toList.dropWhile Char.isWhitespace).reverse.dropWhile Char.isWhitespace).reverse)

/-- The non-empty `/`-separated components of a path (the `parts` of a
`pathlib.Path`, without the root anchor). -/
def components (s : String) : List String :=
  (splitChar '/' s).filter (fun c => decide (c ≠ ""))

/-- Embeds `pathlib.Path(s).name`: the final path component (empty for the root).
Relative paths with no component yield the empty string. -/
def pathName (s : String) : String :=
  (components s).getLastD ""

/-- Embeds `pathlib.Path(s).parent` as a string.  A bare relative component
bottoms out at the empty string (pathlib uses `"."`; the bootstrap only
ever walks absolute paths, where the two agree). -/
def parentDir (s : String) : String :=
  (if strStartsWith s "/" then "/" else "") ++ joinSep "/" (components s).dropLast

/-- Embeds `pathlib` path join `a / b` for a relative right operand `b` (the only
form the module uses). -/
def joinPath (a b : String) : String :=
  if a = "" then b
  else if strEndsWith a "/" then a ++ b
  else a ++ "/" ++ b

/-- Index of the last `'.'` in a character list — Python's `name.rfind('.')`
(`none` standing for `-1`). -/
def rlastDotIdx (cs : List Char) : Option Nat :=
  ((List.range cs.length).filter (fun i => decide (cs.getD i ' ' = '.'))).getLast?

/-- Embeds `pathlib.Path(s).suffix`: the extension of the final component
(`""` when the name has no dot, starts with its only dot, or ends in a dot). -/
def pathSuffix (s : String) : String :=
  let name := (pathName s).toList
  match rlastDotIdx name with
  | some i => if 0 < i ∧ i < name.length - 1 then String.mk (name.drop i) else ""
  | none => ""

/-- Embeds `pathlib.Path(s).stem`: the final component without its extension. -/
def pathStem (s : String) : String :=
  let name := (pathName s).toList
  match rlastDotIdx name with
  | some i => if 0 < i ∧ i < name.length - 1 then String.mk (name.take i) else String.mk name
  | none => String.mk name

/- ---------------------------------------------------------------------
   Entry dispatcher (bootstrap lines 375-386).
--------------------------------------------------------------------- -/

/-- Python truthiness of an optional string (`None` and `""` are falsy). -/
def pyTruthy : Option String → Bool
  | none => false
  | some s => decide (s ≠ "")

/-- The terminal action the dispatcher transfers control to. -/
inductive DispatchAction where
  /-- Embeds `run(import_string(env.entry_point))` — invoke the entry-point
  reference and exit with its return value. -/
  | runEntryPoint (entry_point : String)
  /-- Embeds `run(partial(runpy.run_path, site_packages/"bin"/script,
  run_name="__main__"))` — execute the script as a run-as-main unit. -/
  | runScript (script : String)
  /-- Embeds `execute_interpreter()` — drop into interactive mode. -/
  | interactive
deriving DecidableEq, Repr

/-- The mode-selection tail of `bootstrap` (lines 375-386):

    if not env.interpreter:
        if env.entry_point is not None and not env.script:
            run(import_string(env.entry_point))
        elif env.script is not None:
            run(partial(runpy.run_path, ..., run_name="__main__"))
    execute_interpreter()

`run` never returns (it calls `sys.exit`), so each branch is terminal. -/
def dispatch (interpreter : Bool) (entry_point script : Option String) : DispatchAction :=
  if !interpreter then
    if entry_point.isSome && !(pyTruthy script) then
      DispatchAction.runEntryPoint (entry_point.getD "")
    else if script.isSome then
      DispatchAction.runScript (script.getD "")
    else
      DispatchAction.interactive
  else
    DispatchAction.interactive

/- ---------------------------------------------------------------------
   Preamble step (bootstrap lines 359-373).
--------------------------------------------------------------------- -/

/-- The preamble step of `bootstrap` (lines 359-373).

    if env.preamble:
        preamble_bin = site_packages / "bin" / env.preamble
        if preamble_bin.suffix == ".py":
            runpy.run_path(str(preamble_bin), ..., run_name="__main__")
        else:
            subprocess.run([preamble_bin])

`py_result` is the outcome of the in-process `runpy.run_path` call (an
uncaught exception — including a non-zero `SystemExit` — propagates and
aborts bootstrap, modelled as `Except.error`).  `subproc_returncode` is the
exit status of the `subprocess.run` call; the code never inspects it
(no `check=True`), which is exactly what the corresponding claim is about. -/
def preamble_step (preamble : Option String) (py_result : Except String Unit)
    (subproc_returncode : Nat) : Except String Unit :=
  match preamble with
  | none => Except.ok ()
  | some p =>
    if p = "" then Except.ok ()
    else if pathSuffix p = ".py" then py_result
    else Except.ok ()

/-- The tail of `bootstrap` from the preamble step through entry dispatch
(lines 359-386): dispatch is reached exactly when the preamble step does
not raise. -/
def bootstrap_dispatch (preamble : Option String) (py_result : Except String Unit)
    (subproc_returncode : Nat) (interpreter : Bool)
    (entry_point script : Option String) : Except String DispatchAction :=
  match preamble_step preamble py_result subproc_returncode with
  | Except.error e => Except.error e
  | Except.ok () => Except.ok (dispatch interpreter entry_point script)

/- ---------------------------------------------------------------------
   Search-path splicing (get_first_sitedir_index, bootstrap lines 332-349).
--------------------------------------------------------------------- -/

/-- Embeds `get_first_sitedir_index`:

    for index, part in enumerate(sys.path):
        if Path(part).stem in ("site-packages", "dist-packages"):
            return index

(`None` when no entry matches, modelled as `Option`.) -/
def get_first_sitedir_index (sys_path : List String) : Option Nat :=
  sys_path.findIdx? (fun part =>
    (pathStem part == "site-packages") || (pathStem part == "dist-packages"))

/-- Python's `x or default` on an optional integer: both `None` and `0` are
falsy, so an index of `0` is replaced by the default — this falsiness of
`0` is load-bearing for the site-dir reorder claim. -/
def pyOr (v : Option Nat) (d : Nat) : Nat :=
  match v with
  | none => d
  | some n => if n = 0 then d else n

/-- The `sys.path` manipulation of `bootstrap` (lines 332-349):

    length = len(sys.path)
    index = get_first_sitedir_index() or length
    site.addsitedir(site_packages)
    sys.path = sys.path[:index] + sys.path[length:] + sys.path[index:length]

`site.addsitedir` appends the net-new directories (including any `.pth`
additions) at the end of `sys.path`; the entries it appends are passed in
as `added`. -/
def bootstrap_sys_path (before added : List String) : List String :=
  let length := before.length
  let index := pyOr (get_first_sitedir_index before) length
  let p := before ++ added
  p.take index ++ p.drop length ++ (p.take length).drop index

/- ---------------------------------------------------------------------
   Integrity verifier (ensure_no_modify, lines 297-306).
--------------------------------------------------------------------- -/

/-- One regular file on disk under the extracted root: its path relative to
`site_packages` and its raw content. -/
structure SrcFile where
  rel : String
  content : String
deriving DecidableEq, Repr

/-- Whether a file is picked up by `site_packages.rglob("**/*.py")`: the
final name component must match `*.py`, i.e. end in `".py"` (equivalently,
the whole relative path ends in `".py"`, since `".py"` has no slash). -/
def pyMatch (rel : String) : Bool :=
  strEndsWith rel ".py"

/-- The error message raised by `ensure_no_modify`, with the offending
absolute path formatted in. -/
def tamperMessage (p : String) : String :=
  "A Python source file has been modified! File: " ++ p ++
  ". Try again with SHIV_FORCE_EXTRACT=1 to overwrite the modified source file(s)."

/-- The loop body of `ensure_no_modify` over the (already `*.py`-filtered)
files, in the order `rglob` yields them:

    if hashlib.sha256(path.read_bytes()).hexdigest() != hashes.get(rel):
        raise RuntimeError(...)

`digest` is the SHA-256 hex digest function, kept as a parameter; a file
whose relative path has no recorded hash (`hashes.get` returns `None`)
always compares unequal to the digest string and is a violation. -/
def checkFiles (digest : String → String) (site_packages : String)
    (hashes : List (String × String)) : List SrcFile → Except String Unit
  | [] => Except.ok ()
  | f :: rest =>
    if List.lookup f.rel hashes = some (digest f.content) then
      checkFiles digest site_packages hashes rest
    else
      Except.error (tamperMessage (joinPath site_packages f.rel))

/-- Embeds `ensure_no_modify(site_packages, hashes)`: scan every `*.py` file under
the extracted root (`files` lists the regular files on disk, in the order
`rglob` visits them) and compare its content digest to the recorded one. -/
def ensure_no_modify (digest : String → String) (site_packages : String)
    (files : List SrcFile) (hashes : List (String × String)) : Except String Unit :=
  checkFiles digest site_packages hashes (files.filter (fun f => pyMatch f.rel))

/- ---------------------------------------------------------------------
   Concurrency-safe extractor (extract_site_packages, lines 236-276),
   modelled as the trace of filesystem operations performed after the
   parent-directory check and lock acquisition.
--------------------------------------------------------------------- -/

/-- One entry of the zip archive: its name and the high bits carrying the
original file mode. -/
structure ZipEntry where
  filename : String
  external_attr : Nat
deriving DecidableEq, Repr

/-- A filesystem write performed by `extract_site_packages`. -/
inductive FsOp where
  /-- Embeds `parent.mkdir(parents=True, exist_ok=True)` -/
  | mkdirParents (p : String)
  /-- Embeds `archive.extract(name, target_path_tmp)` -/
  | extractEntry (name dest : String)
  /-- Embeds `os.chmod(extracted, external_attr >> 16)` -/
  | chmod (p : String) (mode : Nat)
  /-- Embeds `compileall.compile_dir(tmp, quiet=2, workers=n)`; `ok` records the
  success flag it returned (it reports compile failures via its return
  value instead of raising) -/
  | compileDir (p : String) (workers : Nat) (ok : Bool)
  /-- Embeds `shutil.rmtree(target_path)` -/
  | rmtree (p : String)
  /-- Embeds `shutil.move(tmp, target_path)` — the atomic publish -/
  | move (src dst : String)
deriving DecidableEq, Repr

/-- Whether an operation is the bytecode pre-compilation step. -/
def isCompileOp : FsOp → Bool
  | FsOp.compileDir _ _ _ => true
  | _ => false

/-- The temporary sibling directory `Path(parent, target.name + ".tmp")`. -/
def tmpDirOf (target_path : String) : String :=
  joinPath (parentDir target_path) (pathName target_path ++ ".tmp")

/-- Embeds `extract_site_packages(archive, target_path, compile_pyc,
compile_workers, force)` as the list of filesystem writes it performs.
`parent_exists` / `target_exists` are the results of the two `exists()`
checks, and `compile_ok` is the success flag `compileall.compile_dir`
would return (its failure is reported by that flag, not by an exception,
so the steps after it run unconditionally).  The `FileLock` acquisition
around the body lives outside `src/` and is not part of the write trace. -/
def extract_site_packages (archive : List ZipEntry) (target_path : String)
    (parent_exists target_exists : Bool) (compile_pyc : Bool)
    (compile_workers : Nat) (compile_ok : Bool) (force : Bool) : List FsOp :=
  let tmp := tmpDirOf target_path
  (if !parent_exists then [FsOp.mkdirParents (parentDir target_path)] else [])
  ++
  (if !target_exists || force then
    ((archive.filter (fun fi => strStartsWith fi.filename "site-packages")).map
      (fun fi => [FsOp.extractEntry fi.filename tmp,
                  FsOp.chmod (joinPath tmp fi.filename) (fi.external_attr >>> 16)])).flatten
    ++ (if compile_pyc then [FsOp.compileDir tmp compile_workers compile_ok] else [])
    ++ (if target_exists then [FsOp.rmtree target_path] else [])
    ++ [FsOp.move tmp target_path]
  else [])

/- ---------------------------------------------------------------------
   Cache path resolution (is_dir_writeable, is_relative_to,
   is_system_path, system_root, user_root, platform_cache, cache_path;
   lines 91-233).  The ambient state the module queries is a `World`.
--------------------------------------------------------------------- -/

/-- The ambient state read by the resolver: the process environment
(`os.environ`), `sys.platform`, `Path.home()`, and the filesystem queries
`Path.exists()` and `os.access(-, os.W_OK)`. -/
structure World where
  environ : String → Option String
  platform : String
  home : String
  pathExists : String → Bool
  writeAccess : String → Bool

/-- Embeds `os.environ.get(k, d)`. -/
def envGet (w : World) (k d : String) : String :=
  (w.environ k).getD d

/-- Embeds `Path(s).expanduser()` for the forms the module produces: a leading
bare `~` is replaced by the user's home directory (a `~other` form for an
unknown user is returned unchanged, as in CPython). -/
def expanduser (home s : String) : String :=
  if s = "~" then home
  else if strStartsWith s "~/" then home ++ strDrop s 1
  else s

/-- Embeds `is_relative_to(path, root)` (the py38 backport in the module):
`path.relative_to(root)` succeeds exactly when the two paths agree on
absoluteness and `root`'s components are a leading run of `path`'s. -/
def is_relative_to (path root : String) : Bool :=
  (strStartsWith path "/" == strStartsWith root "/")
    && List.isPrefixOf (components root) (components path)

/-- Embeds `is_system_path(path)`: whether `path` appears to be a non-user path;
`none` on unsupported platforms (implicitly falsy). -/
def is_system_path (w : World) (path : String) : Option Bool :=
  if w.platform = "linux" then
    some (!(is_relative_to path "/home") && !(is_relative_to path "/root"))
  else if w.platform = "darwin" then
    some (!(is_relative_to path "/Users"))
  else none

/-- Embeds `system_root()`: the platform's global cache root, if any. -/
def system_root (w : World) : Option String :=
  if w.platform = "linux" then some "/var/cache"
  else if w.platform = "darwin" then some "/Library/Caches"
  else none

/-- Embeds `user_root()`: the platform's user cache root, if any, honoring the
relevant environment override and expanding `~`. -/
def user_root (w : World) : Option String :=
  if w.platform = "win32" then
    some (expanduser w.home
      (let v := strTrim (envGet w "LOCALAPPDATA" "")
       if v = "" then "~/AppData/Local" else v))
  else if w.platform = "linux" then
    some (expanduser w.home
      (let v := strTrim (envGet w "XDG_CACHE_HOME" "")
       if v = "" then "~/.cache" else v))
  else if w.platform = "darwin" then
    some (expanduser w.home "~/Library/Caches")
  else none

/-- The ancestor walk of `is_dir_writeable`:

    while not path.exists():
        parent = path.parent
        if parent == path:
            break
        path = parent

Each loop step strips one path component, so a fuel of one more than the
component count always lets the recursion run to the same fixpoint the
Python loop reaches. -/
def nearestExtant (ex : String → Bool) : Nat → String → String
  | 0, p => p
  | Nat.succ fuel, p =>
    if ex p then p
    else
      let parent := parentDir p
      if parent = p then p
      else nearestExtant ex fuel parent

/-- Embeds `is_dir_writeable(path)`: walk up to the nearest extant ancestor and
test write access there. -/
def is_dir_writeable (w : World) (path : String) : Bool :=
  w.writeAccess (nearestExtant w.pathExists ((components path).length + 1) path)

/-- Embeds `cache_path(archive_path, root_dir, platform_compat, build_id)`.
Because `platform_cache` is only evaluated in the `elif platform_compat`
branch, its result is passed in as the already-computed value `pc`; the
explicit-root claim is stated as independence from `pc`. -/
def cache_path (w : World) (archive_path root_dir : String)
    (platform_compat : Bool) (pc : Option String) (build_id : String) : String :=
  let root : Option String :=
    if root_dir ≠ "" then
      let rd := if strStartsWith root_dir "$" = true then
                  envGet w (strDrop root_dir 1) (strDrop root_dir 1)
                else root_dir
      some (expanduser w.home rd)
    else if platform_compat then pc
    else none
  joinPath (root.getD (joinPath w.home ".shiv")) (pathName archive_path ++ "_" ++ build_id)

/-- Embeds `platform_cache(archive_path, build_id)`: adopt the system-wide cache
root when the archive sits on a system path and the candidate cache
location is already populated or writeable; otherwise fall back to the
user cache root, if any. -/
def platform_cache (w : World) (archive_path build_id : String) : Option String :=
  let sys_try : Option String :=
    if is_system_path w archive_path = some true then
      match system_root w with
      | some system_base =>
        let root := joinPath system_base (pathName archive_path)
        let cache := cache_path w archive_path root false none build_id
        let site_packages := joinPath cache "site-packages"
        if w.pathExists site_packages || is_dir_writeable w cache then some root
        else none
      | none => none
    else none
  match sys_try with
  | some r => some r
  | none =>
    match user_root w with
    | some user_base => some (joinPath user_base (pathName archive_path))
    | none => none

/-- Modelled from the spec's adoption condition (§4.1b), for comparison
with `platform_cache`: the system-wide root is eligible exactly when the
archive path is judged non-user, a system root exists for the platform,
and the candidate cache location either already holds a `site-packages`
tree or is writable/creatable. -/
def systemCacheEligible (w : World) (archive_path build_id : String) : Bool :=
  (if is_system_path w archive_path = some true then
    match system_root w with
    | some system_base =>
      let root := joinPath system_base (pathName archive_path)
      let cache := cache_path w archive_path root false none build_id
      w.pathExists (joinPath cache "site-packages") || is_dir_writeable w cache
    | none => false
  else false)

/- ---------------------------------------------------------------------
   PYTHONPATH export (extend_python_path, lines 285-294).
--------------------------------------------------------------------- -/

/-- Embeds `os.pathsep` on the POSIX platforms the bootstrap targets. -/
def os_pathsep : String := ":"

/-- The pre-existing entries:
`environ["PYTHONPATH"].split(os.pathsep) if "PYTHONPATH" in environ else []`. -/
def existing_python_path (environ : String → Option String) : List String :=
  match environ "PYTHONPATH" with
  | some v => splitChar ':' v
  | none => []

/-- First-occurrence deduplication — the embedding of
`sorted(set(xs), key=xs.index)`: the distinct values of `xs`, ordered by
their first occurrence (later duplicates are dropped). -/
def dedupeKeepFirst {α : Type} [DecidableEq α] : List α → List α
  | [] => []
  | x :: xs => x :: (dedupeKeepFirst xs).filter (fun y => decide (y ≠ x))

/-- Embeds `extend_python_path(environ, additional_paths)`: append the new paths
to any pre-existing `PYTHONPATH` value and store back the joined,
first-occurrence-deduplicated list; other keys are untouched. -/
def extend_python_path (environ : String → Option String)
    (additional_paths : List String) : String → Option String :=
  let python_path := existing_python_path environ ++ additional_paths
  fun k =>
    if k = "PYTHONPATH" then
      some (joinSep os_pathsep (dedupeKeepFirst python_path))
    else environ k

/- ---------------------------------------------------------------------
   Helper lemmas.
--------------------------------------------------------------------- -/

/-- Joining a relative component onto a base yields a string ending in that
component. -/
theorem joinPath_suffix (a b : String) : ∃ q, joinPath a b = q ++ b := by
  unfold joinPath
  by_cases h1 : a = ""
  · exact ⟨"", by simp [h1]⟩
  · by_cases h2 : strEndsWith a "/" = true
    · exact ⟨a, by simp [h1, h2]⟩
    · exact ⟨a ++ "/", by simp [h1, h2]⟩

/-- Embeds `checkFiles` succeeds when every listed file matches its recorded
digest. -/
theorem checkFiles_ok (digest : String → String) (site_packages : String)
    (hashes : List (String × String)) :
    ∀ l : List SrcFile,
      (∀ f ∈ l, List.lookup f.rel hashes = some (digest f.content)) →
      checkFiles digest site_packages hashes l = Except.ok ()
  | [], _ => rfl
  | f :: rest, h => by
      have hf := h f (by simp)
      simp only [checkFiles, if_pos hf]
      exact checkFiles_ok digest site_packages hashes rest
        (fun g hg => h g (List.mem_cons_of_mem _ hg))

/-- Embeds `checkFiles` reports the first violating file of its list. -/
theorem checkFiles_first_error (digest : String → String) (site_packages : String)
    (hashes : List (String × String)) :
    ∀ (l1 : List SrcFile) (f : SrcFile) (l2 : List SrcFile),
      (∀ g ∈ l1, List.lookup g.rel hashes = some (digest g.content)) →
      List.lookup f.rel hashes ≠ some (digest f.content) →
      checkFiles digest site_packages hashes (l1 ++ f :: l2)
        = Except.error (tamperMessage (joinPath site_packages f.rel))
  | [], f, l2, _, hf => by simp [checkFiles, if_neg hf]
  | g :: rest, f, l2, h1, hf => by
      have hg := h1 g (by simp)
      simp only [List.cons_append, checkFiles, if_pos hg]
      exact checkFiles_first_error digest site_packages hashes rest f l2
        (fun g' hg' => h1 g' (List.mem_cons_of_mem _ hg')) hf

/-- Membership is preserved by first-occurrence deduplication. -/
theorem mem_dedupeKeepFirst {α : Type} [DecidableEq α] :
    ∀ (l : List α) (a : α), a ∈ dedupeKeepFirst l ↔ a ∈ l
  | [], a => by simp [dedupeKeepFirst]
  | x :: xs, a => by
      by_cases h : a = x
      · simp [dedupeKeepFirst, h]
      · simp [dedupeKeepFirst, h, List.mem_filter, mem_dedupeKeepFirst xs a]

/-- First-occurrence deduplication yields a duplicate-free list. -/
theorem nodup_dedupeKeepFirst {α : Type} [DecidableEq α] :
    ∀ l : List α, (dedupeKeepFirst l).Nodup
  | [] => List.nodup_nil
  | x :: xs => by
      refine List.nodup_cons.mpr ⟨?_, ?_⟩
      · intro hx
        have := (List.mem_filter.mp hx).2
        simp at this
      · exact (nodup_dedupeKeepFirst xs).filter _

/-- First-occurrence deduplication of a concatenation: the deduplicated
left part first, then the deduplicated right part with values already in
the left part removed. -/
theorem dedupeKeepFirst_append {α : Type} [DecidableEq α] :
    ∀ xs ys : List α,
      dedupeKeepFirst (xs ++ ys)
        = dedupeKeepFirst xs
          ++ (dedupeKeepFirst ys).filter (fun y => decide (y ∉ xs))
  | [], ys => by simp [dedupeKeepFirst]
  | x :: xs, ys => by
      have ih := dedupeKeepFirst_append xs ys
      have hfil : ∀ l : List α,
          (l.filter (fun y => decide (y ∉ xs))).filter (fun y => decide (y ≠ x))
            = l.filter (fun y => decide (y ∉ x :: xs)) := by
        intro l
        induction l with
        | nil => rfl
        | cons a l ih2 =>
            by_cases h1 : a = x
            · subst h1
              by_cases h2 : a ∈ xs <;> simp [List.filter_cons, h2, ih2]
            · by_cases h2 : a ∈ xs <;> simp [List.filter_cons, h1, h2, ih2]
      calc dedupeKeepFirst ((x :: xs) ++ ys)
          = x :: (dedupeKeepFirst (xs ++ ys)).filter (fun y => decide (y ≠ x)) := rfl
        _ = x :: ((dedupeKeepFirst xs
              ++ (dedupeKeepFirst ys).filter (fun y => decide (y ∉ xs))).filter
                (fun y => decide (y ≠ x))) := by rw [ih]
        _ = x :: ((dedupeKeepFirst xs).filter (fun y => decide (y ≠ x))
              ++ ((dedupeKeepFirst ys).filter (fun y => decide (y ∉ xs))).filter
                   (fun y => decide (y ≠ x))) := by rw [List.filter_append]
        _ = x :: ((dedupeKeepFirst xs).filter (fun y => decide (y ≠ x))
              ++ (dedupeKeepFirst ys).filter (fun y => decide (y ∉ x :: xs))) := by
                rw [hfil]
        _ = dedupeKeepFirst (x :: xs)
              ++ (dedupeKeepFirst ys).filter (fun y => decide (y ∉ x :: xs)) := by
                simp [dedupeKeepFirst]

/- ---------------------------------------------------------------------
   Claim theorems.
--------------------------------------------------------------------- -/

/-- C1 (counterexample): with an entry point and a non-empty script both
configured and interactive mode off, the dispatcher executes the script —
not the entry point as the claim states.  The dispatch condition
`env.entry_point is not None and not env.script` is false whenever the
script is truthy, so control falls into the `elif env.script is not None`
branch. -/
theorem dispatch_both_configured_runs_script :
    dispatch false (some "mypkg.cli:main") (some "myscript")
      = DispatchAction.runScript "myscript"
    ∧ DispatchAction.runScript "myscript"
        ≠ DispatchAction.runEntryPoint "mypkg.cli:main" := by
  decide

/-- C1 (amended): a non-empty script name takes precedence over a
configured entry point; the entry point is invoked only when the script is
absent or empty; a script alone is executed as a run-as-main unit; forced
interactive mode bypasses both. -/
theorem dispatch_precedence (e s : String) :
    dispatch false (some e) (some s)
      = (if s = "" then DispatchAction.runEntryPoint e else DispatchAction.runScript s)
    ∧ dispatch false (some e) none = DispatchAction.runEntryPoint e
    ∧ dispatch false none (some s) = DispatchAction.runScript s
    ∧ dispatch true (some e) (some s) = DispatchAction.interactive := by
  refine ⟨?_, ?_, ?_, ?_⟩ <;>
    by_cases h : s = "" <;> simp [dispatch, pyTruthy, h]

/-- C2 (code evaluated at the failing input): when the first site-dir entry
of the starting search path sits at index 0, `index = get_first_sitedir_index()
or length` treats the index 0 as falsy and replaces it with `len(sys.path)`,
so the newly registered cache entry is spliced in at the end — after the
pre-existing site directory — instead of immediately before index 0 as the
claim (and the comment above the reorder) require. -/
theorem bootstrap_sys_path_sitedir_index_zero :
    get_first_sitedir_index ["/usr/lib/python3/dist-packages"] = some 0
    ∧ bootstrap_sys_path ["/usr/lib/python3/dist-packages"]
        ["/home/u/.shiv/app.pyz_b1/site-packages"]
      = ["/usr/lib/python3/dist-packages", "/home/u/.shiv/app.pyz_b1/site-packages"]
    ∧ bootstrap_sys_path ["/usr/lib/python3/dist-packages"]
        ["/home/u/.shiv/app.pyz_b1/site-packages"]
      ≠ ["/home/u/.shiv/app.pyz_b1/site-packages", "/usr/lib/python3/dist-packages"] := by
  decide

/-- C3 (counterexample): a non-`.py` preamble is run with
`subprocess.run([preamble_bin])` and its exit status is never inspected —
a non-zero exit (here 7) still reaches entry dispatch instead of aborting. -/
theorem preamble_nonzero_subprocess_reaches_dispatch :
    bootstrap_dispatch (some "setup.sh") (Except.ok ()) 7 false (some "app.main") none
      = Except.ok (DispatchAction.runEntryPoint "app.main")
    ∧ (7 : Nat) ≠ 0 :=
  ⟨rfl, by decide⟩

/-- C3 (amended): only the in-process `.py` preamble path is fatal — an
abnormal completion of `runpy.run_path` propagates and aborts before entry
dispatch — while a non-`.py` preamble runs as a subprocess whose exit
status is ignored, so bootstrap always proceeds to dispatch. -/
theorem preamble_failure_handling (p e : String) (code : Nat) (i : Bool)
    (ep sc : Option String) :
    (pathSuffix p = ".py" →
      bootstrap_dispatch (some p) (Except.error e) code i ep sc = Except.error e)
    ∧ (pathSuffix p ≠ ".py" → ∀ r : Except String Unit,
      bootstrap_dispatch (some p) r code i ep sc = Except.ok (dispatch i ep sc)) := by
  constructor
  · intro h
    have hp : p ≠ "" := by
      intro hp
      rw [hp] at h
      exact absurd h (by decide)
    simp [bootstrap_dispatch, preamble_step, hp, h]
  · intro h r
    by_cases hp : p = ""
    · simp [bootstrap_dispatch, preamble_step, hp]
    · simp [bootstrap_dispatch, preamble_step, hp, h]

/-- Witness for the amended C3 theorem at concrete preambles: a raising
`.py` preamble aborts; a failing shell preamble does not. -/
theorem preamble_failure_handling_witness :
    (pathSuffix "pre.py" = ".py"
     ∧ bootstrap_dispatch (some "pre.py") (Except.error "boom") 0 false none none
         = Except.error "boom")
    ∧ (pathSuffix "setup.sh" ≠ ".py"
     ∧ bootstrap_dispatch (some "setup.sh") (Except.ok ()) 3 false none none
         = Except.ok (dispatch false none none)) :=
  ⟨⟨by decide, (preamble_failure_handling "pre.py" "boom" 0 false none none).1 (by decide)⟩,
   ⟨by decide,
    (preamble_failure_handling "setup.sh" "boom" 3 false none none).2 (by decide)
      (Except.ok ())⟩⟩

/-- C4: the verifier succeeds exactly when every `*.py` file under the
extracted root matches its recorded hash (a file with no recorded hash
counts as a violation, since `hashes.get` yields nothing); on the first
violating file — in scan order — it raises the tamper error naming that
file's path and suggesting `SHIV_FORCE_EXTRACT=1`. -/
theorem ensure_no_modify_spec (digest : String → String) (site_packages : String)
    (files : List SrcFile) (hashes : List (String × String)) :
    ((∀ f ∈ files.filter (fun f => pyMatch f.rel),
        List.lookup f.rel hashes = some (digest f.content)) →
      ensure_no_modify digest site_packages files hashes = Except.ok ())
    ∧ (∀ (l1 : List SrcFile) (f : SrcFile) (l2 : List SrcFile),
        files.filter (fun f => pyMatch f.rel) = l1 ++ f :: l2 →
        (∀ g ∈ l1, List.lookup g.rel hashes = some (digest g.content)) →
        List.lookup f.rel hashes ≠ some (digest f.content) →
        ensure_no_modify digest site_packages files hashes
          = Except.error (tamperMessage (joinPath site_packages f.rel))) := by
  constructor
  · intro h
    exact checkFiles_ok digest site_packages hashes _ h
  · intro l1 f l2 heq h1 hf
    rw [ensure_no_modify, heq]
    exact checkFiles_first_error digest site_packages hashes l1 f l2 h1 hf

/-- Witness for C4: a scan with one good `.py` file, one modified `.py`
file and one data file stops at the modified file and names it. -/
theorem ensure_no_modify_spec_witness :
    (List.filter (fun f => pyMatch f.rel)
        [SrcFile.mk "pkg/ok.py" "good", SrcFile.mk "pkg/bad.py" "evil",
         SrcFile.mk "data.txt" "d"]
      = [SrcFile.mk "pkg/ok.py" "good"] ++ SrcFile.mk "pkg/bad.py" "evil" :: [])
    ∧ (∀ g ∈ [SrcFile.mk "pkg/ok.py" "good"],
        List.lookup g.rel [("pkg/ok.py", "good"), ("pkg/bad.py", "original")]
          = some (id g.content))
    ∧ List.lookup (SrcFile.mk "pkg/bad.py" "evil").rel
        [("pkg/ok.py", "good"), ("pkg/bad.py", "original")]
        ≠ some (id (SrcFile.mk "pkg/bad.py" "evil").content)
    ∧ ensure_no_modify id "/cache/site-packages"
        [SrcFile.mk "pkg/ok.py" "good", SrcFile.mk "pkg/bad.py" "evil",
         SrcFile.mk "data.txt" "d"]
        [("pkg/ok.py", "good"), ("pkg/bad.py", "original")]
      = Except.error (tamperMessage (joinPath "/cache/site-packages" "pkg/bad.py")) :=
  ⟨by decide, by decide, by decide,
   (ensure_no_modify_spec id "/cache/site-packages"
      [SrcFile.mk "pkg/ok.py" "good", SrcFile.mk "pkg/bad.py" "evil",
       SrcFile.mk "data.txt" "d"]
      [("pkg/ok.py", "good"), ("pkg/bad.py", "original")]).2
     [SrcFile.mk "pkg/ok.py" "good"] (SrcFile.mk "pkg/bad.py" "evil") []
     (by decide) (by decide) (by decide)⟩

/-- C5: once the lock is held, if the target directory already exists and
`force` is false the extractor performs no filesystem write at all — no
entry extraction, no chmod, no compilation, no removal and no publish
rename (the parent directory exists whenever the target does, so the
pre-lock mkdir is also skipped). -/
theorem extract_skip_when_published (archive : List ZipEntry) (target_path : String)
    (compile_pyc : Bool) (compile_workers : Nat) (compile_ok : Bool) :
    extract_site_packages archive target_path true true compile_pyc
      compile_workers compile_ok false = [] :=
  rfl

/-- C6 (counterexample): a configured root beginning with `~` is not
honored verbatim — `Path(root_dir).expanduser()` rewrites it to the user's
home directory before the build suffix is appended. -/
theorem cache_path_tilde_not_verbatim :
    cache_path
        ⟨fun _ => none, "linux", "/home/user", fun _ => false, fun _ => false⟩
        "/opt/app.pyz" "~/mycache" false none "abc123"
      = "/home/user/mycache/app.pyz_abc123"
    ∧ cache_path
        ⟨fun _ => none, "linux", "/home/user", fun _ => false, fun _ => false⟩
        "/opt/app.pyz" "~/mycache" false none "abc123"
      ≠ joinPath "~/mycache" (pathName "/opt/app.pyz" ++ "_" ++ "abc123") := by
  decide

/-- C6 (amended): with a non-empty configured root the platform-fallback
value is never consulted (the result is independent of it); the root is
honored after `$`-indirection through the named environment variable
(falling back to the literal remainder when unset) and tilde expansion;
and the returned path always ends with the `<archive-basename>_<build-id>`
component. -/
theorem cache_path_explicit_root (w : World) (archive_path root_dir : String)
    (platform_compat : Bool) (pc1 pc2 : Option String) (build_id : String)
    (h : root_dir ≠ "") :
    cache_path w archive_path root_dir platform_compat pc1 build_id
      = cache_path w archive_path root_dir platform_compat pc2 build_id
    ∧ cache_path w archive_path root_dir platform_compat pc1 build_id
      = joinPath
          (expanduser w.home
            (if strStartsWith root_dir "$" = true then
              envGet w (strDrop root_dir 1) (strDrop root_dir 1)
            else root_dir))
          (pathName archive_path ++ "_" ++ build_id)
    ∧ ∃ q, cache_path w archive_path root_dir platform_compat pc1 build_id
          = q ++ (pathName archive_path ++ "_" ++ build_id) := by
  refine ⟨?_, ?_, ?_⟩
  · simp [cache_path, h]
  · simp [cache_path, h]
  · obtain ⟨q, hq⟩ := joinPath_suffix
      (expanduser w.home
        (if strStartsWith root_dir "$" = true then
          envGet w (strDrop root_dir 1) (strDrop root_dir 1)
        else root_dir))
      (pathName archive_path ++ "_" ++ build_id)
    refine ⟨q, ?_⟩
    rw [← hq]
    simp [cache_path, h]

/-- Witness for the amended C6 theorem: a `$`-indirected root resolved
through the environment, with two different platform-fallback values. -/
theorem cache_path_explicit_root_witness :
    ("$SHIV_ROOT" ≠ "")
    ∧ (cache_path
          ⟨fun k => if k = "SHIV_ROOT" then some "/tmp/cache" else none,
           "linux", "/home/user", fun _ => false, fun _ => false⟩
          "/opt/app.pyz" "$SHIV_ROOT" true (some "/elsewhere") "b1"
        = cache_path
            ⟨fun k => if k = "SHIV_ROOT" then some "/tmp/cache" else none,
             "linux", "/home/user", fun _ => false, fun _ => false⟩
            "/opt/app.pyz" "$SHIV_ROOT" true none "b1"
      ∧ cache_path
          ⟨fun k => if k = "SHIV_ROOT" then some "/tmp/cache" else none,
           "linux", "/home/user", fun _ => false, fun _ => false⟩
          "/opt/app.pyz" "$SHIV_ROOT" true (some "/elsewhere") "b1"
        = joinPath
            (expanduser "/home/user"
              (if strStartsWith "$SHIV_ROOT" "$" = true then
                envGet
                  ⟨fun k => if k = "SHIV_ROOT" then some "/tmp/cache" else none,
                   "linux", "/home/user", fun _ => false, fun _ => false⟩
                  (strDrop "$SHIV_ROOT" 1) (strDrop "$SHIV_ROOT" 1)
              else "$SHIV_ROOT"))
            (pathName "/opt/app.pyz" ++ "_" ++ "b1")
      ∧ ∃ q, cache_path
            ⟨fun k => if k = "SHIV_ROOT" then some "/tmp/cache" else none,
             "linux", "/home/user", fun _ => false, fun _ => false⟩
            "/opt/app.pyz" "$SHIV_ROOT" true (some "/elsewhere") "b1"
          = q ++ (pathName "/opt/app.pyz" ++ "_" ++ "b1")) :=
  ⟨by decide,
   cache_path_explicit_root
     ⟨fun k => if k = "SHIV_ROOT" then some "/tmp/cache" else none,
      "linux", "/home/user", fun _ => false, fun _ => false⟩
     "/opt/app.pyz" "$SHIV_ROOT" true (some "/elsewhere") none "b1" (by decide)⟩

/-- C7: with bytecode pre-compilation requested and failing (the success
flag `compileall.compile_dir` returns is false), extraction still runs to
completion — the trace ends with the atomic publish move, the prior
directory is still removed when it existed, and apart from the compile
step itself the trace is identical to the one with successful
compilation. -/
theorem compile_failure_still_publishes (archive : List ZipEntry)
    (target_path : String) (parent_exists target_exists : Bool)
    (compile_workers : Nat) (force : Bool)
    (h : target_exists = false ∨ force = true) :
    (extract_site_packages archive target_path parent_exists target_exists true
        compile_workers false force).getLast?
      = some (FsOp.move (tmpDirOf target_path) target_path)
    ∧ (target_exists = true →
        FsOp.rmtree target_path ∈ extract_site_packages archive target_path
          parent_exists target_exists true compile_workers false force)
    ∧ (extract_site_packages archive target_path parent_exists target_exists true
        compile_workers false force).filter (fun op => !(isCompileOp op))
      = (extract_site_packages archive target_path parent_exists target_exists true
          compile_workers true force).filter (fun op => !(isCompileOp op)) := by
  have hcond : (!target_exists || force) = true := by
    rcases h with h | h <;> simp [h]
  refine ⟨?_, ?_, ?_⟩
  · rw [extract_site_packages]
    simp only [hcond, if_pos]
    rw [← List.append_assoc]
    exact List.getLast?_concat _
  · intro hte
    have hforce : force = true := by
      rcases h with h1 | h1
      · rw [hte] at h1; exact absurd h1 (by decide)
      · exact h1
    rw [extract_site_packages]
    simp [hte, hforce]
  · rw [extract_site_packages, extract_site_packages]
    simp only [hcond, if_pos, if_true]
    simp [List.filter_append, isCompileOp]

/-- Witness for C7 at a concrete archive, with a prior published directory
and `force` set. -/
theorem compile_failure_still_publishes_witness :
    (true = false ∨ true = true)
    ∧ ((extract_site_packages [ZipEntry.mk "site-packages/mod.py" 0]
          "/home/u/.shiv/app.pyz_b1" true true true 0 false true).getLast?
        = some (FsOp.move (tmpDirOf "/home/u/.shiv/app.pyz_b1") "/home/u/.shiv/app.pyz_b1")
      ∧ (true = true →
          FsOp.rmtree "/home/u/.shiv/app.pyz_b1" ∈ extract_site_packages
            [ZipEntry.mk "site-packages/mod.py" 0] "/home/u/.shiv/app.pyz_b1"
            true true true 0 false true)
      ∧ (extract_site_packages [ZipEntry.mk "site-packages/mod.py" 0]
            "/home/u/.shiv/app.pyz_b1" true true true 0 false true).filter
            (fun op => !(isCompileOp op))
        = (extract_site_packages [ZipEntry.mk "site-packages/mod.py" 0]
            "/home/u/.shiv/app.pyz_b1" true true true 0 true true).filter
            (fun op => !(isCompileOp op))) :=
  ⟨Or.inr rfl,
   compile_failure_still_publishes [ZipEntry.mk "site-packages/mod.py" 0]
     "/home/u/.shiv/app.pyz_b1" true true 0 true (Or.inr rfl)⟩

/-- C8: the platform cache resolver adopts the system-wide root exactly
under the spec's adoption condition (`systemCacheEligible`: the archive
path is judged non-user, a system root exists, and the candidate cache
location has a `site-packages` tree or is writable/creatable via the
nearest-extant-ancestor walk); otherwise it falls back to the platform's
user cache root, if any. -/
theorem platform_cache_adoption (w : World) (archive_path build_id : String) :
    (systemCacheEligible w archive_path build_id = true →
      platform_cache w archive_path build_id
        = (system_root w).map (fun sb => joinPath sb (pathName archive_path)))
    ∧ (systemCacheEligible w archive_path build_id = false →
      platform_cache w archive_path build_id
        = (user_root w).map (fun ub => joinPath ub (pathName archive_path))) := by
  constructor
  · intro h
    rw [systemCacheEligible] at h
    rw [platform_cache]
    by_cases hsp : is_system_path w archive_path = some true
    · rw [if_pos hsp] at h
      cases hsr : system_root w with
      | none => rw [hsr] at h; simp at h
      | some sb =>
          rw [hsr] at h
          simp only at h
          simp [hsp, hsr, h]
    · rw [if_neg hsp] at h
      simp at h
  · intro h
    rw [systemCacheEligible] at h
    rw [platform_cache]
    by_cases hsp : is_system_path w archive_path = some true
    · rw [if_pos hsp] at h
      cases hsr : system_root w with
      | none =>
          simp only [hsp, hsr, if_true]
          cases user_root w <;> simp
      | some sb =>
          rw [hsr] at h
          simp only at h
          simp only [hsp, hsr, if_true]
          simp only [h]
          cases user_root w <;> simp
    · simp only [hsp, if_false]
      cases user_root w <;> simp

/-- Witness for C8: on one world the archive sits on a system path with a
writable candidate (system root adopted); on another the archive lives
under `/home` (user fallback). -/
theorem platform_cache_adoption_witness :
    (systemCacheEligible
        ⟨fun _ => none, "linux", "/home/u", fun _ => false, fun _ => true⟩
        "/opt/app.pyz" "b1" = true
     ∧ platform_cache
         ⟨fun _ => none, "linux", "/home/u", fun _ => false, fun _ => true⟩
         "/opt/app.pyz" "b1"
       = (system_root
           ⟨fun _ => none, "linux", "/home/u", fun _ => false, fun _ => true⟩).map
           (fun sb => joinPath sb (pathName "/opt/app.pyz")))
    ∧ (systemCacheEligible
        ⟨fun _ => none, "linux", "/home/u", fun _ => false, fun _ => true⟩
        "/home/u/app.pyz" "b1" = false
     ∧ platform_cache
         ⟨fun _ => none, "linux", "/home/u", fun _ => false, fun _ => true⟩
         "/home/u/app.pyz" "b1"
       = (user_root
           ⟨fun _ => none, "linux", "/home/u", fun _ => false, fun _ => true⟩).map
           (fun ub => joinPath ub (pathName "/home/u/app.pyz"))) :=
  ⟨⟨by decide,
    (platform_cache_adoption
       ⟨fun _ => none, "linux", "/home/u", fun _ => false, fun _ => true⟩
       "/opt/app.pyz" "b1").1 (by decide)⟩,
   ⟨by decide,
    (platform_cache_adoption
       ⟨fun _ => none, "linux", "/home/u", fun _ => false, fun _ => true⟩
       "/home/u/app.pyz" "b1").2 (by decide)⟩⟩

/-- C9: the exported `PYTHONPATH` value is the separator-join of a
duplicate-free list consisting of the deduplicated pre-existing entries
first, in their original relative order, followed by the new entries in
their given order with first occurrence winning (and entries already
present dropped). -/
theorem extend_python_path_spec (environ : String → Option String)
    (additional_paths : List String) :
    extend_python_path environ additional_paths "PYTHONPATH"
      = some (joinSep os_pathsep
          (dedupeKeepFirst (existing_python_path environ)
            ++ (dedupeKeepFirst additional_paths).filter
                 (fun y => decide (y ∉ existing_python_path environ))))
    ∧ (dedupeKeepFirst (existing_python_path environ ++ additional_paths)).Nodup := by
  constructor
  · simp [extend_python_path, dedupeKeepFirst_append]
  · exact nodup_dedupeKeepFirst _

/-- C10: the verifier scans only `*.py` files — replacing the content of a
file whose name does not match `*.py` (a data file, compiled extension, or
bytecode file) never changes the verification outcome. -/
theorem ensure_no_modify_ignores_non_py (digest : String → String)
    (site_packages : String) (hashes : List (String × String))
    (l1 l2 : List SrcFile) (rel c c' : String)
    (hnp : pyMatch rel = false) :
    ensure_no_modify digest site_packages (l1 ++ SrcFile.mk rel c :: l2) hashes
      = ensure_no_modify digest site_packages (l1 ++ SrcFile.mk rel c' :: l2) hashes := by
  have hfil : (l1 ++ SrcFile.mk rel c :: l2).filter (fun f => pyMatch f.rel)
      = (l1 ++ SrcFile.mk rel c' :: l2).filter (fun f => pyMatch f.rel) := by
    simp [List.filter_append, List.filter_cons, hnp]
  rw [ensure_no_modify, ensure_no_modify, hfil]

/-- Witness for C10: changing the bytes of a data file does not affect the
verifier. -/
theorem ensure_no_modify_ignores_non_py_witness :
    pyMatch "data.bin" = false
    ∧ ensure_no_modify id "/sp" ([] ++ SrcFile.mk "data.bin" "x" :: []) []
        = ensure_no_modify id "/sp" ([] ++ SrcFile.mk "data.bin" "y" :: []) [] :=
  ⟨by decide,
   ensure_no_modify_ignores_non_py id "/sp" [] [] [] "data.bin" "x" "y" (by decide)⟩

